import Mathlib

/-
Verification of the OpenHands CLI entry point
(src/openhands-cli/openhands_cli/simple_main.py).

The module is a bootstrapper: module-level DEBUG handling, the pure
function _build_initial_task_from_args resolving the initial message from
the parsed --file and --task flags, and main, whose try/except block maps the
outcome of the delegated call to terminal output and process behaviour.

File reading is modelled by a parameter readFile : String → Except String
String: Except.ok c is the UTF-8 decoded content of the file at that path,
Except.error e is str(e) of the OSError/UnicodeDecodeError that open/read
raised. The empty string is not a valid pathname, so readFile is only
meaningful on non-empty paths; the code never reads an empty path because
Python truthiness sends an empty --file value down the --task branch.
-/

/-- Character-wise lowercasing, as Python str.lower behaves on the ASCII
values the DEBUG check compares against. -/
def strLower (s : String) : String := String.mk (s.data.map Char.toLower)

/-- The module-level value debug_env = os.getenv('DEBUG', 'false').lower(),
as a function of the optional DEBUG environment value. -/
def debug_env (debugVar : Option String) : String :=
  strLower (debugVar.getD "false")

/-- Whether the module-level guard runs logging.disable(logging.WARNING),
i.e. whether debug_env != '1' and debug_env != 'true'. -/
def warningsSuppressed (debugVar : Option String) : Bool :=
  debug_env debugVar != "1" && debug_env debugVar != "true"

/-- The argparse namespace: --resume, --task and --file all default to None. -/
structure Args where
  resume : Option String
  task : Option String
  file : Option String
deriving DecidableEq

/-- Python truthiness of an optional string: None and the empty string are
falsy, every other string is truthy. -/
def truthy : Option String → Bool
  | none => false
  | some s => s != ""

/-- The templated message returned on a successful file read, concatenated
exactly as the adjacent literals of the Python f-string. -/
def successMessage (path content : String) : String :=
  "The user has tagged a file '" ++ path ++ "'.\n" ++
  "Please read and understand the following file content first:\n\n" ++
  "```\n" ++ content ++ "\n" ++ "```\n\n" ++
  "After reviewing the file, please ask the user what they would like to do with it."

/-- The fallback message returned when the file cannot be read, with err
standing for str(e) of the caught exception. -/
def fallbackMessage (path err : String) : String :=
  "The user attempted to share file '" ++ path ++ "', but it could not be read: " ++ err

/-- Shallow embedding of _build_initial_task_from_args: if args.file is
truthy, read it and return the success template, or the fallback message if
the read raises (the except clause absorbs every exception, so this branch
is total); otherwise return args.task if truthy, else None. -/
def _build_initial_task_from_args (readFile : String → Except String String)
    (args : Args) : Option String :=
  if truthy args.file then
    match readFile (args.file.getD "") with
    | Except.ok content => some (successMessage (args.file.getD "") content)
    | Except.error e => some (fallbackMessage (args.file.getD "") e)
  else if truthy args.task then args.task
  else none

/-- The exception classes distinguished by main's handlers: ImportError,
KeyboardInterrupt and EOFError, and any other Exception (carrying str(e)). -/
inductive PyExc where
  | importError (detail : String)
  | keyboardInterrupt
  | eofError
  | other (detail : String)
deriving DecidableEq

/-- One unit of terminal output from main's handlers: a
print_formatted_text line of HTML markup, or the traceback dump emitted by
traceback.print_exc. -/
inductive OutputEvent where
  | formatted (s : String)
  | printTrace
deriving DecidableEq

/-- The observable outcome of main: the output the handlers print and the
exception re-raised to the process boundary, if any. raised = none means
main returns normally and the process exits with code 0; raised = some e
means the bare raise propagates e and the process fails. -/
structure MainResult where
  output : List OutputEvent
  raised : Option PyExc
deriving DecidableEq

/-- Shallow embedding of main's try/except dispatch, as a function of the
outcome of the try body (building the initial task and calling
run_cli_entry): ImportError prints two coloured lines and re-raises,
KeyboardInterrupt and EOFError print the goodbye line and return,
any other exception prints a coloured error line and the traceback and
re-raises. -/
def mainDispatch (body : Except PyExc Unit) : MainResult :=
  match body with
  | Except.ok _ => MainResult.mk [] none
  | Except.error (PyExc.importError d) =>
      MainResult.mk
        [OutputEvent.formatted
          ("<red>Error: Agent chat requires additional dependencies: " ++ d ++ "</red>"),
         OutputEvent.formatted
          "<yellow>Please ensure the agent SDK is properly installed.</yellow>"]
        (some (PyExc.importError d))
  | Except.error PyExc.keyboardInterrupt =>
      MainResult.mk [OutputEvent.formatted "\n<yellow>Goodbye! 👋</yellow>"] none
  | Except.error PyExc.eofError =>
      MainResult.mk [OutputEvent.formatted "\n<yellow>Goodbye! 👋</yellow>"] none
  | Except.error (PyExc.other d) =>
      MainResult.mk
        [OutputEvent.formatted ("<red>Error starting agent chat: " ++ d ++ "</red>"),
         OutputEvent.printTrace]
        (some (PyExc.other d))

/-- needle occurs verbatim and contiguously inside hay. -/
def containsStr (hay needle : String) : Prop :=
  ∃ a b : List Char, hay.data = a ++ needle.data ++ b

/-- hay ends with suffix. -/
def strEndsWith (hay suffix : String) : Prop :=
  ∃ a : List Char, hay.data = a ++ suffix.data

theorem containsStr_of_eq (hay a needle b : String) (h : hay = a ++ needle ++ b) :
    containsStr hay needle := by
  refine ⟨a.data, b.data, ?_⟩
  subst h
  simp [String.data_append, List.append_assoc]

theorem strEndsWith_of_eq (hay a suffix : String) (h : hay = a ++ suffix) :
    strEndsWith hay suffix := by
  refine ⟨a.data, ?_⟩
  subst h
  simp [String.data_append]

theorem append_right_congr (a : String) {x y : String} (h : x = y) :
    a ++ x = a ++ y := by
  rw [h]

/-- C1: when both --file and --task carry non-empty values, the resolved
initial message is unchanged by dropping --task, and it is exactly the
file-derived message (success template or unreadable-file fallback), so the
--task string contributes nothing and is not merged. -/
theorem c1_file_overrides_task (readFile : String → Except String String)
    (r : Option String) (p t : String) (hp : p ≠ "") (ht : t ≠ "") :
    _build_initial_task_from_args readFile (Args.mk r (some t) (some p)) =
      _build_initial_task_from_args readFile (Args.mk r none (some p)) ∧
    _build_initial_task_from_args readFile (Args.mk r (some t) (some p)) =
      some (match readFile p with
            | Except.ok c => successMessage p c
            | Except.error e => fallbackMessage p e) := by
  constructor <;>
    cases hr : readFile p <;>
      simp [_build_initial_task_from_args, truthy, hp, hr]

/-- Witness for C1: a concrete readable file together with a task string;
the task is ignored and the result is the success template. -/
theorem c1_file_overrides_task_witness :
    _build_initial_task_from_args (fun _ => Except.ok "hello")
        (Args.mk none (some "do it") (some "a.txt")) =
      _build_initial_task_from_args (fun _ => Except.ok "hello")
        (Args.mk none none (some "a.txt")) ∧
    _build_initial_task_from_args (fun _ => Except.ok "hello")
        (Args.mk none (some "do it") (some "a.txt")) =
      some (successMessage "a.txt" "hello") :=
  c1_file_overrides_task (fun _ => Except.ok "hello") none "a.txt" "do it"
    (by decide) (by decide)

/-- C4 counterexample: the claim quantifies over all strings T, but at
T = "" (with no --file) the code resolves no message at all rather than the
empty string, so the result is not exactly T. -/
theorem c4_task_only_counterexample :
    ¬ (_build_initial_task_from_args (fun _ => Except.error "unused")
        (Args.mk none (some "") none) = some "") := by
  decide

/-- C4 amended: for every non-empty string T, invoking with only --task T
and no --file resolves an initial message exactly equal to T. -/
theorem c4_task_only (readFile : String → Except String String)
    (r : Option String) (t : String) (ht : t ≠ "") :
    _build_initial_task_from_args readFile (Args.mk r (some t) none) = some t := by
  simp [_build_initial_task_from_args, truthy, ht]

/-- Witness for the amended C4 at a concrete task string. -/
theorem c4_task_only_witness :
    _build_initial_task_from_args (fun _ => Except.error "unused")
        (Args.mk none (some "summarize this repo") none) = some "summarize this repo" :=
  c4_task_only (fun _ => Except.error "unused") none "summarize this repo" (by decide)

/-- C5: with neither --file nor --task given, resolution yields no initial
message at all (None), not an empty string. -/
theorem c5_no_flags (readFile : String → Except String String) (r : Option String) :
    _build_initial_task_from_args readFile (Args.mk r none none) = none := by
  rfl

/-- C10: empty-string flag values behave as absent ones: --file "" makes
resolution fall through to --task exactly as when --file is unset, and
--task "" with no --file yields no initial message (None), not "". -/
theorem c10_empty_flags (readFile : String → Except String String)
    (r t : Option String) :
    _build_initial_task_from_args readFile (Args.mk r t (some "")) =
      _build_initial_task_from_args readFile (Args.mk r t none) ∧
    _build_initial_task_from_args readFile (Args.mk r (some "") none) = none := by
  constructor <;> rfl

/-- C2: for a non-empty path whose file reads successfully with content c,
resolution produces a message that contains the path verbatim, contains the
content verbatim inside a fenced block, and ends with the instruction
asking the agent to ask the user what to do with the file. -/
theorem c2_success_template (readFile : String → Except String String)
    (args : Args) (p c : String) (hfile : args.file = some p) (hp : p ≠ "")
    (hread : readFile p = Except.ok c) :
    ∃ m, _build_initial_task_from_args readFile args = some m ∧
      containsStr m p ∧
      containsStr m ("```\n" ++ c ++ "\n```") ∧
      strEndsWith m
        "After reviewing the file, please ask the user what they would like to do with it." := by
  refine ⟨successMessage p c, ?_, ?_, ?_, ?_⟩
  · simp [_build_initial_task_from_args, truthy, hfile, hp, hread]
  · refine containsStr_of_eq _ "The user has tagged a file '" _
      ("'.\n" ++ "Please read and understand the following file content first:\n\n" ++
        "```\n" ++ c ++ "\n" ++ "```\n\n" ++
        "After reviewing the file, please ask the user what they would like to do with it.") ?_
    simp [successMessage, String.append_assoc]
  · refine containsStr_of_eq _
      ("The user has tagged a file '" ++ p ++ "'.\n" ++
        "Please read and understand the following file content first:\n\n") _
      ("\n\n" ++
        "After reviewing the file, please ask the user what they would like to do with it.") ?_
    simp only [successMessage, String.append_assoc]
    refine append_right_congr _ (append_right_congr _ (append_right_congr _
      (append_right_congr _ (append_right_congr _ (append_right_congr _ (by decide))))))
  · refine strEndsWith_of_eq _
      ("The user has tagged a file '" ++ p ++ "'.\n" ++
        "Please read and understand the following file content first:\n\n" ++
        "```\n" ++ c ++ "\n" ++ "```\n\n") _ ?_
    simp only [successMessage, String.append_assoc]

/-- Witness for C2: the spec's own example, notes.txt containing Buy milk. -/
theorem c2_success_template_witness :
    ∃ m, _build_initial_task_from_args (fun _ => Except.ok "Buy milk")
        (Args.mk none none (some "notes.txt")) = some m ∧
      containsStr m "notes.txt" ∧
      containsStr m ("```\n" ++ "Buy milk" ++ "\n```") ∧
      strEndsWith m
        "After reviewing the file, please ask the user what they would like to do with it." :=
  c2_success_template (fun _ => Except.ok "Buy milk")
    (Args.mk none none (some "notes.txt")) "notes.txt" "Buy milk" rfl (by decide) rfl

/-- C3: for a non-empty path whose read raises with description e,
resolution never raises: the except clause turns every exception into a
returned fallback string that contains the path and the error description. -/
theorem c3_fallback_message (readFile : String → Except String String)
    (args : Args) (p e : String) (hfile : args.file = some p) (hp : p ≠ "")
    (hread : readFile p = Except.error e) :
    ∃ m, _build_initial_task_from_args readFile args = some m ∧
      containsStr m p ∧ containsStr m e := by
  refine ⟨fallbackMessage p e, ?_, ?_, ?_⟩
  · simp [_build_initial_task_from_args, truthy, hfile, hp, hread]
  · refine containsStr_of_eq _ "The user attempted to share file '" _
      ("', but it could not be read: " ++ e) ?_
    simp [fallbackMessage, String.append_assoc]
  · refine containsStr_of_eq _
      ("The user attempted to share file '" ++ p ++ "', but it could not be read: ") _ "" ?_
    simp [fallbackMessage, String.append_assoc]

/-- Witness for C3: a concrete missing file. -/
theorem c3_fallback_message_witness :
    ∃ m, _build_initial_task_from_args
        (fun _ => Except.error "[Errno 2] No such file or directory: 'gone.txt'")
        (Args.mk none (some "t") (some "gone.txt")) = some m ∧
      containsStr m "gone.txt" ∧
      containsStr m "[Errno 2] No such file or directory: 'gone.txt'" :=
  c3_fallback_message
    (fun _ => Except.error "[Errno 2] No such file or directory: 'gone.txt'")
    (Args.mk none (some "t") (some "gone.txt")) "gone.txt"
    "[Errno 2] No such file or directory: 'gone.txt'" rfl (by decide) rfl

/-- C6: warning-and-below logging is disabled if and only if the DEBUG
value, lowercased, is neither 1 nor true; in particular it is disabled when
DEBUG is unset, and not disabled when the value lowercases to 1 or true. -/
theorem c6_debug_suppression (v : Option String) :
    warningsSuppressed v = true ↔
      (Option.map strLower v ≠ some "1" ∧ Option.map strLower v ≠ some "true") := by
  cases v with
  | none =>
      simp only [Option.map_none, warningsSuppressed]
      refine ⟨fun _ => ⟨by simp, by simp⟩, fun _ => by decide⟩
  | some s =>
      simp [warningsSuppressed, debug_env, Option.getD, bne_iff_ne]

/-- C7: a user interruption (KeyboardInterrupt or EOFError) from the try
body makes main print a single goodbye line, re-raise nothing, and return
normally, so the process exits with code 0. -/
theorem c7_interrupt_goodbye (e : PyExc)
    (h : e = PyExc.keyboardInterrupt ∨ e = PyExc.eofError) :
    mainDispatch (Except.error e) =
      MainResult.mk [OutputEvent.formatted "\n<yellow>Goodbye! 👋</yellow>"] none := by
  rcases h with h | h <;> subst h <;> rfl

/-- Witness for C7 at a concrete KeyboardInterrupt. -/
theorem c7_interrupt_goodbye_witness :
    mainDispatch (Except.error PyExc.keyboardInterrupt) =
      MainResult.mk [OutputEvent.formatted "\n<yellow>Goodbye! 👋</yellow>"] none :=
  c7_interrupt_goodbye PyExc.keyboardInterrupt (Or.inl rfl)

/-- C8: an ImportError from the try body makes main print exactly two
formatted lines, the first a red line naming the missing-dependency
condition and containing its detail, the second a yellow hint that the
agent SDK needs installing, and then re-raise the same exception so the
process fails. -/
theorem c8_import_error_dispatch (d : String) :
    ∃ l1 l2 : String,
      (mainDispatch (Except.error (PyExc.importError d))).output =
        [OutputEvent.formatted l1, OutputEvent.formatted l2] ∧
      containsStr l1 "Error: Agent chat requires additional dependencies: " ∧
      containsStr l1 d ∧
      containsStr l2 "Please ensure the agent SDK is properly installed." ∧
      (mainDispatch (Except.error (PyExc.importError d))).raised =
        some (PyExc.importError d) := by
  refine ⟨"<red>Error: Agent chat requires additional dependencies: " ++ d ++ "</red>",
    "<yellow>Please ensure the agent SDK is properly installed.</yellow>",
    rfl, ?_, ?_, ?_, rfl⟩
  · refine containsStr_of_eq _ "<red>" _ (d ++ "</red>") ?_
    simp [String.append_assoc]
  · refine containsStr_of_eq _
      "<red>Error: Agent chat requires additional dependencies: " _ "</red>" ?_
    simp [String.append_assoc]
  · exact containsStr_of_eq _ "<yellow>" _ "</yellow>" (by decide)

/-- C9: any other exception from the try body makes main print a red error
line containing the failure's description, print the full traceback, and
then re-raise the same exception so the process fails. -/
theorem c9_unclassified_dispatch (d : String) :
    ∃ l : String,
      (mainDispatch (Except.error (PyExc.other d))).output =
        [OutputEvent.formatted l, OutputEvent.printTrace] ∧
      containsStr l "Error starting agent chat: " ∧
      containsStr l d ∧
      (mainDispatch (Except.error (PyExc.other d))).raised =
        some (PyExc.other d) := by
  refine ⟨"<red>Error starting agent chat: " ++ d ++ "</red>", rfl, ?_, ?_, rfl⟩
  · refine containsStr_of_eq _ "<red>" _ (d ++ "</red>") ?_
    simp [String.append_assoc]
  · refine containsStr_of_eq _ "<red>Error starting agent chat: " _ "</red>" ?_
    simp [String.append_assoc]
